import Mathlib

/-!
Shallow embedding of `src/index.js` of vue-cli-plugin-apollo: the
`apollo:watch` / `apollo:run` command handlers, the `flatArgs` flag
flattening loop, the nodemon event handlers, and `sendIpcMessage`
(lazy IPC channel with a 3000 ms idle-close timer).
-/

namespace VueApollo

/-- JavaScript runtime values as they occur in the `args` mapping and the
environment: `undefined`, booleans, numbers and strings. -/
inductive JSVal where
  | undefined
  | bool (b : Bool)
  | num (n : Int)
  | str (s : String)
  deriving DecidableEq, Repr

/-- JavaScript truthiness: `undefined` and `false` are falsy, the number 0 is
falsy, the empty string is falsy; everything else is truthy. -/
def truthy : JSVal → Bool
  | .undefined => false
  | .bool b => b
  | .num n => n != 0
  | .str s => s != ""

/-- JavaScript string coercion, as applied by template literals,
`Array.prototype.join` and environment-variable assignment. -/
def jsToString : JSVal → String
  | .undefined => "undefined"
  | .bool true => "true"
  | .bool false => "false"
  | .num n => toString n
  | .str s => s

/-- `COMMAND_OPTIONS` from `src/index.js` lines 10-15: an object literal whose
keys are the long flags, in declaration order (JS preserves insertion order of
string keys when iterating with `for...in`). -/
def COMMAND_OPTIONS : List (String × String) :=
  [ ("--mock", "enables mocks")
  , ("--enable-engine", "enables Apollo Engine")
  , ("--delay", "delays run by a small duration")
  , ("--port", "specify server port") ]

/-- The declared flag order: the keys of `COMMAND_OPTIONS`. -/
def commandOptionKeys : List String := COMMAND_OPTIONS.map Prod.fst

/-- The `args` mapping passed to a command handler: a lookup from short flag
name to JS value; `none` models a key the object does not own
(`hasOwnProperty` false). -/
def Args : Type := String → Option JSVal

/-- `key.substr(2)`: the short key of a `--flag`. -/
def shortKey (key : String) : String := key.drop 2

/-- The `flatArgs` loop of `apollo:watch` (`src/index.js` lines 75-85),
iterating the given key list: for each declared key owned by `args`, push the
key; when the value is not strictly `true`, also push the value (coerced to a
string by the later `join(' ')`). -/
def flatArgsFrom (args : Args) : List String → List String
  | [] => []
  | key :: rest =>
    match args (shortKey key) with
    | none => flatArgsFrom args rest
    | some v =>
      if v = JSVal.bool true then key :: flatArgsFrom args rest
      else key :: jsToString v :: flatArgsFrom args rest

/-- `flatArgs` as built by `apollo:watch`: the loop run over the keys of
`COMMAND_OPTIONS`. -/
def flatArgs (args : Args) : List String := flatArgsFrom args commandOptionKeys

/-- The contribution of a single declared flag, as the spec describes it:
nothing when absent, the bare name for a boolean-true value, name followed by
value otherwise. Spec-side characterization used to compare against
`flatArgs`. -/
def specFlagContribution (args : Args) (key : String) : List String :=
  match args (shortKey key) with
  | none => []
  | some (JSVal.bool true) => [key]
  | some v => [key, jsToString v]

/-- The args of Scenario D: `{mock: true, port: 5000}`. -/
def scenarioDArgs : Args := fun k =>
  if k = "mock" then some (JSVal.bool true)
  else if k = "port" then some (JSVal.num 5000) else none

/-- An args mapping `{delay: true}`: the user passing the bare delay flag. -/
def delayArgs : Args := fun k =>
  if k = "delay" then some (JSVal.bool true) else none

/-! ## Status payloads and the IPC envelope -/

/-- The `urls` object of a ready message. -/
structure Urls where
  playground : String
  deriving DecidableEq, Repr

/-- A status payload object as passed to `sendIpcMessage`. Each field is
optional because the JS object literals differ in which keys they own:
`error = none` means the `error` key is absent, `urls = none` that the `urls`
key is absent, `urls = some none` that it is present with value `null`. -/
structure StatusPayload where
  error : Option Bool
  urls : Option (Option Urls)
  deriving DecidableEq, Repr

/-- The message actually pushed over the channel: the payload wrapped under
the fixed namespace key (`src/index.js` lines 224-226). -/
structure IpcEnvelope where
  key : String
  payload : StatusPayload
  deriving DecidableEq, Repr

/-- `ipc.send({'org.akryum.vue-apollo': message})`. -/
def wrapMessage (m : StatusPayload) : IpcEnvelope :=
  { key := "org.akryum.vue-apollo", payload := m }

/-- `{error: false}` — sent when the watcher is armed (line 99-101) and on
every restart announcement (line 106-108). -/
def armedPayload : StatusPayload := { error := some false, urls := none }

/-- `{urls: null, error: true}` — sent by the crash handler (lines 115-118). -/
def crashPayload : StatusPayload := { error := some true, urls := some none }

/-- The payload sent by the `apollo:run` server-ready callback
(`src/index.js` lines 181-187): `{urls: {playground:
"http://localhost:<port><graphqlPath>"}}` — note there is no `error` key in
the source object literal. -/
def readyPayload (port : JSVal) (graphqlPath : String) : StatusPayload :=
  { error := none
  , urls := some (some ⟨"http://localhost:" ++ jsToString port ++ graphqlPath⟩) }

/-! ## The `apollo:watch` nodemon event handlers and the startup send -/

/-- The nodemon events that `apollo:watch` registers handlers for
(`src/index.js` lines 103-132). -/
inductive WatchEvent where
  | restart
  | crash
  | stdout
  | stderr
  | quit
  deriving DecidableEq, Repr

/-- The observable effect of one handler invocation: the status payload it
sends (if any), whether it resolves or rejects the `apollo:watch` promise,
whether it calls `process.exit`, and whether it writes to the console. -/
structure HandlerEffect where
  send : Option StatusPayload
  resolves : Bool
  rejects : Bool
  exits : Bool
  logs : Bool
  deriving DecidableEq, Repr

/-- The handler bodies from `src/index.js` lines 103-132: `restart` logs and
sends `{error: false}`; `crash` logs and sends `{urls: null, error: true}`;
`stdout`/`stderr` only log; `quit` resolves the promise and exits the
process. `reject` is never called anywhere in the executor. -/
def watchHandler : WatchEvent → HandlerEffect
  | .restart => { send := some armedPayload, resolves := false, rejects := false
                , exits := false, logs := true }
  | .crash => { send := some crashPayload, resolves := false, rejects := false
              , exits := false, logs := true }
  | .stdout => { send := none, resolves := false, rejects := false
               , exits := false, logs := true }
  | .stderr => { send := none, resolves := false, rejects := false
               , exits := false, logs := true }
  | .quit => { send := none, resolves := true, rejects := false
             , exits := true, logs := false }

/-- The payload sent unconditionally right after `nodemon(...)` arms the
watcher (`src/index.js` lines 99-101), before any child output. -/
def watchStartupPayload : StatusPayload := armedPayload

/-- Every place in `src/index.js` that calls `sendIpcMessage`. -/
inductive SendSite where
  | watchStart
  | onRestart
  | onCrash
  | onReady
  deriving DecidableEq, Repr

/-- The payload passed to `sendIpcMessage` at each call site; the ready site
depends on the resolved port and graphql path. -/
def sitePayload (port : JSVal) (graphqlPath : String) : SendSite → StatusPayload
  | .watchStart => watchStartupPayload
  | .onRestart => armedPayload
  | .onCrash => crashPayload
  | .onReady => readyPayload port graphqlPath

/-! ## `sendIpcMessage`: lazy channel, 3000 ms idle-close timer -/

/-- The module-level mutable state of `src/index.js` line 17: `ipc` (the
channel object, modelled by whether it is non-null) and `ipcTimer` (the
pending idle-close timeout, modelled by its absolute fire time). -/
structure IpcState where
  ipc : Bool
  deadline : Option Nat
  deriving DecidableEq, Repr

/-- The initial state: no channel, no timer. -/
def ipcUnset : IpcState := { ipc := false, deadline := none }

/-- The event loop firing a due timer: at time `t`, a pending
`setTimeout(..., 3000)` whose fire time `d` satisfies `d ≤ t` has already run
`ipc.disconnect(); ipc = null` (lines 228-231), leaving the channel unset. -/
def fireTimer (s : IpcState) (t : Nat) : IpcState :=
  match s.deadline with
  | some d => if d ≤ t then { ipc := false, deadline := none } else s
  | none => s

/-- The observable result of one `sendIpcMessage` call. -/
structure NotifyResult where
  state : IpcState
  connected : Bool
  sent : Bool
  deriving DecidableEq, Repr

/-- `sendIpcMessage` (`src/index.js` lines 218-233) invoked at absolute time
`t`, with `transport` modelling whether `IpcMessenger` is available in the
environment: any due idle timer has fired first; `if (!ipc && IpcMessenger)`
a new channel is constructed and connected; `if (ipc)` the message is sent,
the pending timer is cleared and a fresh 3000 ms idle-close timer is set. -/
def sendIpcMessage (transport : Bool) (t : Nat) (s0 : IpcState) : NotifyResult :=
  let s := fireTimer s0 t
  let conn := !s.ipc && transport
  let s1 := if conn then { s with ipc := true } else s
  if s1.ipc then
    { state := { ipc := true, deadline := some (t + 3000) }
    , connected := conn, sent := true }
  else
    { state := s1, connected := false, sent := false }

/-! ## `apollo:run`: port resolution and the delay branch -/

/-- Line 147: `const port = args.port || process.env.VUE_APP_GRAPHQL_PORT ||
4000`. The args value is `undefined` when the key is absent; the environment
value, when set, is a string. -/
def resolvePort (argPort : Option JSVal) (envPort : Option String) : JSVal :=
  let a := argPort.getD JSVal.undefined
  if truthy a then a
  else
    let e := match envPort with
      | some s => JSVal.str s
      | none => JSVal.undefined
    if truthy e then e else JSVal.num 4000

/-- Lines 147-148: the resolved port together with the value written back
into `process.env.VUE_APP_GRAPHQL_PORT` (environment assignment coerces to a
string), performed before `server(opts, ...)` is called. -/
structure PortSetup where
  port : JSVal
  envPort : String
  deriving DecidableEq, Repr

/-- The port-resolution step of the `apollo:run` handler. -/
def runPortSetup (argPort : Option JSVal) (envPort : Option String) : PortSetup :=
  let p := resolvePort argPort envPort
  { port := p, envPort := jsToString p }

/-- Whether the `apollo:run` handler defers `run` or calls it at once. -/
inductive RunMode where
  | deferred (ms : Nat)
  | immediate
  deriving DecidableEq, Repr

/-- Lines 190-194: `if (args.delay) { setTimeout(run, 300) } else { run() }`. -/
def runDispatch (delay : JSVal) : RunMode :=
  if truthy delay then RunMode.deferred 300 else RunMode.immediate

/-! ## The `apollo:watch` exec command line -/

/-- Line 89: the exec command `${cmd} run apollo:run --delay
${flatArgs.join(' ')}` as its whitespace token list: the fixed prefix ends in
an unconditional `--delay`, followed by the flattened user args. -/
def watchExecTokens (cmd : String) (args : Args) : List String :=
  [cmd, "run", "apollo:run", "--delay"] ++ flatArgs args

/-! ## Watch and ignore paths -/

/-- A filesystem path as its list of segments; `api.resolve` and `path.join`
become segment-list concatenation. -/
abbrev FsPath : Type := List String

/-- `api.resolve(p)`: resolve `p` against the project working directory. -/
def apiResolve (cwd p : FsPath) : FsPath := List.append cwd p

/-- `path.join(a, b)` for a single trailing segment. -/
def pathJoin (a : FsPath) (seg : String) : FsPath := List.append a [seg]

/-- The watch configuration handed to nodemon. -/
structure WatchSpec where
  root : FsPath
  ignore : List FsPath
  extensions : List String

/-- The nodemon configuration built by `apollo:watch` (`src/index.js` lines
88-97): watch `api.resolve(baseFolder)`, ignore
`api.resolve(path.join(baseFolder, 'live'))`, extensions
`js mjs json graphql gql`. -/
def mkWatchSpec (cwd baseFolder : FsPath) : WatchSpec :=
  { root := apiResolve cwd baseFolder
  , ignore := [apiResolve cwd (pathJoin baseFolder "live")]
  , extensions := ["js", "mjs", "json", "graphql", "gql"] }

/-- `r` is a subpath of ... rather: `p` lies at or under `r`. -/
def isSubpath (r p : FsPath) : Bool := List.isPrefixOf r p

/-- Modelled from the spec: the FileWatcher trigger condition (nodemon is an
external dependency, not part of `src/`). Spec section 4.3: `watch(spec,
onChange)` observes `root` recursively for events on files whose extension is
in `extensions`, excluding anything under `ignore`. -/
def triggersRestart (w : WatchSpec) (file : FsPath) (ext : String) : Bool :=
  isSubpath w.root file && w.extensions.contains ext
    && !(w.ignore.any fun i => isSubpath i file)

/-! ## Helper lemmas -/

/-- The flattening loop, over any key list, produces exactly the
concatenation of the per-flag contributions. -/
theorem flatArgsFrom_eq_flatMap (args : Args) (ks : List String) :
    flatArgsFrom args ks = ks.flatMap (specFlagContribution args) := by
  induction ks with
  | nil => rfl
  | cons k rest ih =>
    rw [List.flatMap_cons]
    unfold flatArgsFrom specFlagContribution
    cases h : args (shortKey k) with
    | none => simpa using ih
    | some v =>
      match v with
      | .bool true => simpa using ih
      | .bool false => simpa using ih
      | .undefined => simpa using ih
      | .num n => simpa using ih
      | .str s => simpa using ih

/-- The owned flags, in declared order, form a subsequence of the flattened
argument list. -/
theorem presentKeys_sublist_flatArgsFrom (args : Args) (ks : List String) :
    (ks.filter fun k => (args (shortKey k)).isSome).Sublist (flatArgsFrom args ks) := by
  induction ks with
  | nil => simp [flatArgsFrom]
  | cons k rest ih =>
    unfold flatArgsFrom
    cases h : args (shortKey k) with
    | none => simpa [List.filter_cons, h] using ih
    | some v =>
      rw [List.filter_cons]
      simp only [h, Option.isSome_some, if_pos]
      by_cases hv : v = JSVal.bool true
      · rw [if_pos hv]
        exact ih.cons₂ k
      · rw [if_neg hv]
        exact (ih.cons (jsToString v)).cons₂ k

/-- A declared flag owned by `args` appears in the flattened list. -/
theorem key_mem_flatArgs (args : Args) (k : String) (v : JSVal)
    (hk : k ∈ commandOptionKeys) (hv : args (shortKey k) = some v) :
    k ∈ flatArgs args := by
  rw [flatArgs, flatArgsFrom_eq_flatMap]
  refine List.mem_flatMap.mpr ⟨k, hk, ?_⟩
  unfold specFlagContribution
  rw [hv]
  match v with
  | .bool true => exact List.mem_singleton.mpr rfl
  | .bool false => exact List.mem_cons_self _ _
  | .undefined => exact List.mem_cons_self _ _
  | .num n => exact List.mem_cons_self _ _
  | .str s => exact List.mem_cons_self _ _

/-- Any `sendIpcMessage` call with a transport leaves the channel open with a
fresh idle-close deadline 3000 ms after the call, whatever the prior state. -/
theorem sendIpcMessage_true_state (t : Nat) (s : IpcState) :
    (sendIpcMessage true t s).state = { ipc := true, deadline := some (t + 3000) } := by
  unfold sendIpcMessage
  cases hip : (fireTimer s t).ipc <;> simp [hip]

/-! ## Claim theorems -/

/-- C1: flattening any `args` mapping against the declared flag order
`[--mock, --enable-engine, --delay, --port]` yields exactly the per-flag
contributions in declared order (absent flag: nothing; boolean-true value:
bare name; any other value: name then value); the owned flags form a
subsequence of the output in declared order; and `{mock: true, port: 5000}`
flattens to `["--mock", "--port", "5000"]`. -/
theorem C1_flatArgs_order_and_contributions :
    (∀ args : Args, flatArgs args = commandOptionKeys.flatMap (specFlagContribution args))
    ∧ (∀ args : Args,
        (commandOptionKeys.filter fun k => (args (shortKey k)).isSome).Sublist
          (flatArgs args))
    ∧ flatArgs scenarioDArgs = ["--mock", "--port", "5000"] := by
  refine ⟨fun args => flatArgsFrom_eq_flatMap args commandOptionKeys,
    fun args => presentKeys_sublist_flatArgsFrom args commandOptionKeys, ?_⟩
  decide

/-- C2 as stated is false: the server-ready payload built by the source
(`src/index.js` lines 182-186) owns no `error` key, so at port 4000 and path
`/graphql` its `error` field is not `false`. -/
theorem C2_ready_payload_counterexample :
    ¬ (readyPayload (JSVal.num 4000) "/graphql").error = some false := by
  decide

/-- C2 amended: for every port and graphqlPath, the ready payload carries the
playground URL `http://localhost:<port><graphqlPath>` and is wrapped under
the fixed namespace key, but it owns no `error` key (so in particular it
never reports an error). -/
theorem C2_ready_payload_amended (port : JSVal) (graphqlPath : String) :
    (readyPayload port graphqlPath).urls
        = some (some ⟨"http://localhost:" ++ jsToString port ++ graphqlPath⟩)
    ∧ (readyPayload port graphqlPath).error = none
    ∧ wrapMessage (readyPayload port graphqlPath)
        = { key := "org.akryum.vue-apollo", payload := readyPayload port graphqlPath } :=
  ⟨rfl, rfl, rfl⟩

/-- C3: with a transport available, a `sendIpcMessage` call at time `t`
leaves the channel open with its idle-close deadline reset to `t + 3000`
whatever the prior state; if no further call occurs, at any time
`t1 ≥ t + 3000` the timer has fired, disconnecting and unsetting the channel;
at any time `t2 < t + 3000` (e.g. 2999 ms later) the channel is still open,
and a call then cancels the pending close and resets the deadline to
`t2 + 3000`. -/
theorem C3_notify_idle_close_timer (t t1 t2 : Nat) (s : IpcState)
    (h1 : t + 3000 ≤ t1) (h2 : t2 < t + 3000) :
    (sendIpcMessage true t s).state = { ipc := true, deadline := some (t + 3000) }
    ∧ fireTimer { ipc := true, deadline := some (t + 3000) } t1 = ipcUnset
    ∧ fireTimer { ipc := true, deadline := some (t + 3000) } t2
        = { ipc := true, deadline := some (t + 3000) }
    ∧ (sendIpcMessage true t2 { ipc := true, deadline := some (t + 3000) }).state
        = { ipc := true, deadline := some (t2 + 3000) } := by
  refine ⟨sendIpcMessage_true_state t s, ?_, ?_, sendIpcMessage_true_state t2 _⟩
  · unfold fireTimer ipcUnset
    simp [h1]
  · unfold fireTimer
    simp [Nat.not_le.mpr h2]

/-- C3 witness: a notify at time 0 sets the deadline to 3000; idle at 3000
the channel is closed and unset; a notify at 2999 finds it open and resets
the deadline to 5999. -/
theorem C3_notify_idle_close_timer_instance :
    (0 : Nat) + 3000 ≤ 3000 ∧ (2999 : Nat) < 0 + 3000
    ∧ ((sendIpcMessage true 0 ipcUnset).state
          = { ipc := true, deadline := some (0 + 3000) }
       ∧ fireTimer { ipc := true, deadline := some (0 + 3000) } 3000 = ipcUnset
       ∧ fireTimer { ipc := true, deadline := some (0 + 3000) } 2999
           = { ipc := true, deadline := some (0 + 3000) }
       ∧ (sendIpcMessage true 2999 { ipc := true, deadline := some (0 + 3000) }).state
           = { ipc := true, deadline := some (2999 + 3000) }) :=
  ⟨by decide, by decide,
    C3_notify_idle_close_timer 0 3000 2999 ipcUnset (by decide) (by decide)⟩

/-- C4: the crash handler sends the payload `{urls: null, error: true}`,
wrapped under the fixed namespace key, and it neither resolves nor rejects
the `apollo:watch` promise nor exits the process, so the supervisor stays in
its watching state and later file changes can still trigger restarts. -/
theorem C4_crash_payload_keeps_watching :
    (watchHandler WatchEvent.crash).send = some crashPayload
    ∧ crashPayload = { error := some true, urls := some none }
    ∧ wrapMessage crashPayload
        = { key := "org.akryum.vue-apollo", payload := crashPayload }
    ∧ (watchHandler WatchEvent.crash).resolves = false
    ∧ (watchHandler WatchEvent.crash).rejects = false
    ∧ (watchHandler WatchEvent.crash).exits = false :=
  ⟨rfl, rfl, rfl, rfl, rfl, rfl⟩

/-- C5: on an unset channel, a notify with a transport available constructs
and connects the channel and sends the message; with no transport available
it sends nothing, opens nothing, and returns with the state unchanged (a
best-effort no-op, no error raised). -/
theorem C5_notify_lazy_connect_or_noop (t : Nat) :
    (sendIpcMessage true t ipcUnset).connected = true
    ∧ (sendIpcMessage true t ipcUnset).sent = true
    ∧ (sendIpcMessage true t ipcUnset).state.ipc = true
    ∧ sendIpcMessage false t ipcUnset
        = { state := ipcUnset, connected := false, sent := false } := by
  refine ⟨?_, ?_, ?_, ?_⟩ <;> simp [sendIpcMessage, fireTimer, ipcUnset]

/-- C6: across all four `sendIpcMessage` call sites in the source, the
payload equals `{error: false}` exactly at the two sites the claim names:
the watcher-armed startup send and the restart announcement — never at the
crash site or the server-ready site. -/
theorem C6_error_false_exactly_two_sites (port : JSVal) (graphqlPath : String)
    (site : SendSite) :
    sitePayload port graphqlPath site = { error := some false, urls := none }
      ↔ (site = SendSite.watchStart ∨ site = SendSite.onRestart) := by
  cases site <;>
    simp [sitePayload, watchStartupPayload, armedPayload, crashPayload, readyPayload]

/-- C7: among the registered nodemon event handlers, only the quit handler
resolves the `apollo:watch` promise, and no handler ever rejects it — so the
returned promise resolves, without error, only on the explicit stop signal
and on no other event. -/
theorem C7_resolve_only_on_quit (e : WatchEvent) :
    ((watchHandler e).resolves = true ↔ e = WatchEvent.quit)
    ∧ (watchHandler e).rejects = false := by
  cases e <;> simp [watchHandler]

/-- C8: for every project directory and base server folder, every ignore path
of the watch spec built by `apollo:watch` is a subpath of the watch root —
it is exactly the `live` subdirectory of the root; and, under the
spec-modelled watcher trigger, editing `apollo-server/live/x.json` produces
no restart while editing `apollo-server/resolvers.js` does. -/
theorem C8_ignore_subpath_of_root (cwd base p : FsPath)
    (hp : p ∈ (mkWatchSpec cwd base).ignore) :
    isSubpath (mkWatchSpec cwd base).root p = true
    ∧ p = (mkWatchSpec cwd base).root ++ ["live"]
    ∧ triggersRestart (mkWatchSpec [] ["apollo-server"])
        ["apollo-server", "live", "x.json"] "json" = false
    ∧ triggersRestart (mkWatchSpec [] ["apollo-server"])
        ["apollo-server", "resolvers.js"] "js" = true := by
  have hp' : p = apiResolve cwd (pathJoin base "live") := by
    simpa [mkWatchSpec] using hp
  have hroot : apiResolve cwd (pathJoin base "live")
      = (mkWatchSpec cwd base).root ++ ["live"] := by
    simp [mkWatchSpec, apiResolve, pathJoin]
  refine ⟨?_, hp'.trans hroot, by decide, by decide⟩
  rw [hp', hroot, isSubpath, List.isPrefixOf_iff_prefix]
  exact List.prefix_append _ _

/-- C8 witness: the concrete watch spec for project root `[]` and base folder
`apollo-server` has `apollo-server/live` in its ignore list, and the claim
holds for it. -/
theorem C8_ignore_subpath_of_root_instance :
    ["apollo-server", "live"] ∈ (mkWatchSpec [] ["apollo-server"]).ignore
    ∧ (isSubpath (mkWatchSpec [] ["apollo-server"]).root ["apollo-server", "live"] = true
       ∧ ["apollo-server", "live"] = (mkWatchSpec [] ["apollo-server"]).root ++ ["live"]
       ∧ triggersRestart (mkWatchSpec [] ["apollo-server"])
           ["apollo-server", "live", "x.json"] "json" = false
       ∧ triggersRestart (mkWatchSpec [] ["apollo-server"])
           ["apollo-server", "resolvers.js"] "js" = true) :=
  ⟨by decide,
    C8_ignore_subpath_of_root [] ["apollo-server"] ["apollo-server", "live"] (by decide)⟩

/-- C9: `apollo:run` chooses the port as `args.port` if truthy, otherwise the
`VUE_APP_GRAPHQL_PORT` environment value if truthy (a non-empty string),
otherwise 4000; an absent `args.port` behaves as `undefined`; the chosen port
is written back to `VUE_APP_GRAPHQL_PORT` (coerced to a string); in
particular an explicit port of 0 is replaced by the fallback value. -/
theorem C9_port_fallback_chain :
    (∀ (a : JSVal) (e : Option String),
      resolvePort (some a) e
        = (if truthy a then a
           else match e with
             | some s => if s ≠ "" then JSVal.str s else JSVal.num 4000
             | none => JSVal.num 4000))
    ∧ (∀ e, resolvePort none e = resolvePort (some JSVal.undefined) e)
    ∧ (∀ (a : Option JSVal) (e : Option String),
        (runPortSetup a e).envPort = jsToString (runPortSetup a e).port)
    ∧ resolvePort (some (JSVal.num 0)) none = JSVal.num 4000
    ∧ resolvePort (some (JSVal.num 0)) (some "7000") = JSVal.str "7000" := by
  refine ⟨fun a e => ?_, fun e => rfl, fun a e => rfl, by decide, by decide⟩
  unfold resolvePort
  cases ht : truthy a with
  | true => simp [ht]
  | false =>
    cases e with
    | none => simp [ht]; decide
    | some s =>
      by_cases hs : s = ""
      · subst hs
        simp [ht]
        decide
      · have hts : truthy (JSVal.str s) = true := by
          simp [truthy, hs]
        simp [ht, hs, hts]

/-- C10: for every command and args mapping, the exec command line built by
`apollo:watch` is the fixed prefix ending in `--delay` followed by the
flattened user args, so `--delay` is always present; when the user also
passes a delay value, `--delay` occurs at least twice; and the `apollo:run`
delay branch defers the run by 300 ms for any truthy delay value — in
particular for the `true` produced by the always-appended bare flag. -/
theorem C10_delay_always_appended :
    (∀ (cmd : String) (a : Args),
        watchExecTokens cmd a = [cmd, "run", "apollo:run", "--delay"] ++ flatArgs a
        ∧ "--delay" ∈ watchExecTokens cmd a)
    ∧ (∀ (cmd : String) (a : Args) (v : JSVal), a "delay" = some v
        → 2 ≤ (watchExecTokens cmd a).count "--delay")
    ∧ (∀ v : JSVal, truthy v = true → runDispatch v = RunMode.deferred 300)
    ∧ runDispatch (JSVal.bool true) = RunMode.deferred 300 := by
  refine ⟨fun cmd a => ⟨rfl, ?_⟩, fun cmd a v hv => ?_, fun v hv => ?_, rfl⟩
  · unfold watchExecTokens
    exact List.mem_append_left _ (by simp)
  · have hsk : shortKey "--delay" = "delay" := by decide
    have hmem : "--delay" ∈ flatArgs a :=
      key_mem_flatArgs a "--delay" v (by decide) (by rw [hsk]; exact hv)
    have h1 : 0 < List.count "--delay" [cmd, "run", "apollo:run", "--delay"] :=
      List.count_pos_iff.mpr (by simp)
    have h2 : 0 < (flatArgs a).count "--delay" := List.count_pos_iff.mpr hmem
    unfold watchExecTokens
    rw [List.count_append]
    omega
  · simp [runDispatch, hv]

/-- C10 witness: with command `yarn` and args `{delay: true}`, the exec token
list is the fixed prefix plus `["--delay"]`, `--delay` occurs twice, and the
bare flag's value `true` takes the 300 ms deferral branch. -/
theorem C10_delay_always_appended_instance :
    delayArgs "delay" = some (JSVal.bool true)
    ∧ truthy (JSVal.bool true) = true
    ∧ (watchExecTokens "yarn" delayArgs
         = ["yarn", "run", "apollo:run", "--delay"] ++ flatArgs delayArgs
       ∧ "--delay" ∈ watchExecTokens "yarn" delayArgs)
    ∧ 2 ≤ (watchExecTokens "yarn" delayArgs).count "--delay"
    ∧ runDispatch (JSVal.bool true) = RunMode.deferred 300 :=
  ⟨rfl, rfl, C10_delay_always_appended.1 "yarn" delayArgs,
    C10_delay_always_appended.2.1 "yarn" delayArgs (JSVal.bool true) rfl,
    C10_delay_always_appended.2.2.1 (JSVal.bool true) rfl⟩

end VueApollo
